import Mathlib

/-
Verification of the configuration unit src/secrets_template.h of the
epever-modbus-mqtt-dashboard repository.

The source file declares ten global constants: nine string bindings of
C type `const char*` (a mutable pointer to immutable character data)
and one integer binding of C type `const int` (an immutable integer
object). We embed the declarations, their C type qualifiers, their
initializer expressions, and the (empty) list of runtime statements of
the file, and prove the claimed properties about them.
-/

namespace EpeverSecrets

/-- A value held by one of the configuration bindings: a string literal
or an integer. -/
inductive Value where
  | str (s : String)
  | int (n : Int)
  deriving DecidableEq, Repr

/-- An initializer expression. The supplied source only uses literals,
but the grammar also admits a conditional so that absence of branching
in the actual initializers is a checkable fact rather than a tautology. -/
inductive Expr where
  | strLit (s : String)
  | intLit (n : Int)
  | cond (c t e : Expr)
  deriving DecidableEq, Repr

/-- Evaluate an initializer expression. Literals always succeed; a
conditional whose condition is not an integer is an error. -/
def evalExpr : Expr → Except String Value
  | .strLit s => .ok (.str s)
  | .intLit n => .ok (.int n)
  | .cond c t e =>
    match evalExpr c with
    | .ok (.int n) => if n == 0 then evalExpr e else evalExpr t
    | .ok (.str _) => .error "condition is not an integer"
    | .error m => .error m

/-- Whether an initializer expression contains any branching logic. -/
def hasBranching : Expr → Bool
  | .strLit _ => false
  | .intLit _ => false
  | .cond _ _ _ => true

/-- The declared C type of a binding in secrets_template.h.
`ptrToConstChar` is `const char*`: the pointed-to characters are
immutable but the pointer binding itself is a modifiable lvalue.
`constInt` is `const int`: the integer object itself is immutable. -/
inductive CType where
  | ptrToConstChar
  | constInt
  deriving DecidableEq, Repr

/-- Whether a binding of the given declared type may itself be
reassigned after initialization, per C/C++ semantics: a `const char*`
binding is a non-const pointer and may be reassigned; a `const int`
binding may not. -/
def CType.reassignable : CType → Bool
  | .ptrToConstChar => true
  | .constInt => false

/-- Whether a value is compatible with a declared C type. -/
def Value.matchesType : Value → CType → Bool
  | .str _, .ptrToConstChar => true
  | .int _, .constInt => true
  | _, _ => false

/-- One declaration of the header: its name, its declared C type, and
its initializer expression. -/
structure Decl where
  name : String
  ty : CType
  init : Expr
  deriving DecidableEq, Repr

/-- Line 3 of src/secrets_template.h. -/
def hostname : String := "espSolarChargerOTA"

/-- Line 4 of src/secrets_template.h. -/
def mqtt_user : String := "mqtt_user"

/-- Line 5 of src/secrets_template.h. -/
def mqtt_pass : String := "mqtt_password"

/-- Line 6 of src/secrets_template.h. -/
def mqtt_server : String := "192.168.1.15"

/-- Line 7 of src/secrets_template.h. -/
def mqtt_port : Int := 1883

/-- Line 8 of src/secrets_template.h. -/
def wifi_ssid : String := "wifi_network"

/-- Line 9 of src/secrets_template.h (the literal has three letters s,
exactly as in the source). -/
def wifi_pass : String := "wifi_passsword"

/-- Line 10 of src/secrets_template.h. -/
def mqtt_topic : String := "epever/state"

/-- Line 11 of src/secrets_template.h. -/
def ota_pass : String := "guessme"

/-- Line 12 of src/secrets_template.h. -/
def mqtt_deepsleep : String := "epever/deepsleep"

/-- The ten declarations of src/secrets_template.h, in source order. -/
def secretsTemplate : List Decl :=
  [ ⟨"hostname", .ptrToConstChar, .strLit hostname⟩,
    ⟨"mqtt_user", .ptrToConstChar, .strLit mqtt_user⟩,
    ⟨"mqtt_pass", .ptrToConstChar, .strLit mqtt_pass⟩,
    ⟨"mqtt_server", .ptrToConstChar, .strLit mqtt_server⟩,
    ⟨"mqtt_port", .constInt, .intLit mqtt_port⟩,
    ⟨"wifi_ssid", .ptrToConstChar, .strLit wifi_ssid⟩,
    ⟨"wifi_pass", .ptrToConstChar, .strLit wifi_pass⟩,
    ⟨"mqtt_topic", .ptrToConstChar, .strLit mqtt_topic⟩,
    ⟨"ota_pass", .ptrToConstChar, .strLit ota_pass⟩,
    ⟨"mqtt_deepsleep", .ptrToConstChar, .strLit mqtt_deepsleep⟩ ]

/-- Static initialization: evaluate every initializer in order,
producing the name-to-value store, or the first error. -/
def staticInit : List Decl → Except String (List (String × Value))
  | [] => .ok []
  | d :: ds =>
    match evalExpr d.init, staticInit ds with
    | .ok v, .ok store => .ok ((d.name, v) :: store)
    | .error m, _ => .error m
    | _, .error m => .error m

/-- The store produced by static initialization of the template. -/
def templateStore : List (String × Value) :=
  [ ("hostname", .str "espSolarChargerOTA"),
    ("mqtt_user", .str "mqtt_user"),
    ("mqtt_pass", .str "mqtt_password"),
    ("mqtt_server", .str "192.168.1.15"),
    ("mqtt_port", .int 1883),
    ("wifi_ssid", .str "wifi_network"),
    ("wifi_pass", .str "wifi_passsword"),
    ("mqtt_topic", .str "epever/state"),
    ("ota_pass", .str "guessme"),
    ("mqtt_deepsleep", .str "epever/deepsleep") ]

/-- Read the current value of a named binding. -/
def readVar : List Decl → String → Option Value
  | [], _ => none
  | d :: ds, n => if d.name = n then (evalExpr d.init).toOption else readVar ds n

/-- Attempt to reassign a named binding, as C/C++ permits: the write
succeeds only if the name is declared, the declared type of the binding
makes it a modifiable lvalue, and the value fits the declared type.
Otherwise the program would not compile, modeled as `none`. -/
def writeVar : List Decl → String → Value → Option (List Decl)
  | [], _, _ => none
  | d :: ds, n, v =>
    if d.name = n then
      if d.ty.reassignable && v.matchesType d.ty then
        some ({ d with init := match v with | .str s => .strLit s | .int k => .intLit k } :: ds)
      else none
    else (writeVar ds n v).map (fun r => d :: r)

/-- A runtime operation on the global store: reading a binding or
writing one. -/
inductive Op where
  | read (n : String)
  | write (n : String) (v : Value)
  deriving DecidableEq, Repr

/-- Execute one operation. Reads leave the store unchanged; writes
update it when legal and leave it unchanged otherwise. -/
def step (ds : List Decl) : Op → List Decl
  | .read _ => ds
  | .write n v => (writeVar ds n v).getD ds

/-- Execute a sequence of operations. -/
def run (ds : List Decl) (ops : List Op) : List Decl :=
  ops.foldl step ds

/-- The runtime statements of src/secrets_template.h: the file consists
solely of declarations with initializers and holds no executable
statements after static initialization. -/
def runtimeOps : List Op := []

/-- Split a character list at every dot character. -/
def splitDot : List Char → List (List Char)
  | [] => [[]]
  | c :: cs =>
    let rest := splitDot cs
    if c = '.' then [] :: rest
    else
      match rest with
      | [] => [[c]]
      | g :: gs => (c :: g) :: gs

/-- Numeric value of a decimal digit string. -/
def digitsVal (cs : List Char) : Nat :=
  cs.foldl (fun a c => 10 * a + (c.toNat - 48)) 0

/-- A dotted component is a valid IPv4 octet: non-empty, all decimal
digits, and at most 255. -/
def isOctet (cs : List Char) : Bool :=
  !cs.isEmpty && cs.all Char.isDigit && decide (digitsVal cs ≤ 255)

/-- A string is an IPv4 literal: exactly four dot-separated components,
each a valid octet. -/
def isIPv4 (s : String) : Bool :=
  let parts := splitDot s.toList
  parts.length == 4 && parts.all isOctet

/-- Whether the first list is an initial segment of the second. -/
def startsWith : List Char → List Char → Bool
  | [], _ => true
  | _ :: _, [] => false
  | p :: ps, c :: cs => p == c && startsWith ps cs

/-- A topic string contains no MQTT wildcard character. -/
def noWildcard (s : String) : Bool :=
  s.toList.all (fun c => c != '#' && c != '+')

/-- Printable ASCII character (codes 32 through 126). -/
def isPrintableAscii (c : Char) : Bool :=
  decide (32 ≤ c.toNat) && decide (c.toNat ≤ 126)

/-- ASCII whitespace character. -/
def isWhitespaceChar (c : Char) : Bool :=
  c == ' ' || c == '\t' || c == '\n' || c == '\r'

/-- ASCII control character (codes below 32, and 127). -/
def isControlChar (c : Char) : Bool :=
  decide (c.toNat < 32) || c.toNat == 127

/-- A declaration carries a present, non-null value of its documented
type: its initializer evaluates successfully to a value compatible with
the declared C type. -/
def typedNonNull (d : Decl) : Bool :=
  match evalExpr d.init with
  | .ok v => v.matchesType d.ty
  | .error _ => false

/-- The initializer of a declaration, when a string, is non-empty. -/
def stringValueNonEmpty (d : Decl) : Bool :=
  match evalExpr d.init with
  | .ok (.str s) => s != ""
  | _ => true

/-- The nine string constant values of the template, in source order. -/
def stringValues : List String :=
  [hostname, mqtt_user, mqtt_pass, mqtt_server, wifi_ssid, wifi_pass,
   mqtt_topic, ota_pass, mqtt_deepsleep]

/-- C1: when the template is used unmodified, static initialization
binds every name to exactly the literal given in the template:
hostname to "espSolarChargerOTA", mqtt_user to "mqtt_user", mqtt_pass
to "mqtt_password", mqtt_server to "192.168.1.15", wifi_ssid to
"wifi_network", wifi_pass to "wifi_passsword", mqtt_topic to
"epever/state", ota_pass to "guessme", and mqtt_deepsleep to
"epever/deepsleep". -/
theorem c1_template_literals :
    staticInit secretsTemplate = Except.ok templateStore ∧
    templateStore =
      [ ("hostname", Value.str "espSolarChargerOTA"),
        ("mqtt_user", Value.str "mqtt_user"),
        ("mqtt_pass", Value.str "mqtt_password"),
        ("mqtt_server", Value.str "192.168.1.15"),
        ("mqtt_port", Value.int 1883),
        ("wifi_ssid", Value.str "wifi_network"),
        ("wifi_pass", Value.str "wifi_passsword"),
        ("mqtt_topic", Value.str "epever/state"),
        ("ota_pass", Value.str "guessme"),
        ("mqtt_deepsleep", Value.str "epever/deepsleep") ] := by
  constructor <;> rfl

/-- C2 counterexample: the claim that none of the ten bindings can be
reassigned after initialization is false. The hostname binding has C
type `const char*`, a modifiable pointer lvalue, so assigning a new
string to it is legal and changes the store. -/
theorem c2_counterexample_hostname_reassignable :
    (writeVar secretsTemplate "hostname" (Value.str "attacker")).isSome = true ∧
    writeVar secretsTemplate "hostname" (Value.str "attacker") ≠ some secretsTemplate := by
  decide

/-- C2 amended: the unit exposes exactly the ten named values, no more
and no fewer (a write to any undeclared name is a compile error); the
mqtt_port binding is an immutable integer binding that cannot be
reassigned; but each of the nine string bindings is a mutable pointer
to immutable character data, so the pointer binding itself can be
reassigned after initialization. -/
theorem c2_amended_ten_bindings_mutability :
    secretsTemplate.map Decl.name =
      ["hostname", "mqtt_user", "mqtt_pass", "mqtt_server", "mqtt_port",
       "wifi_ssid", "wifi_pass", "mqtt_topic", "ota_pass", "mqtt_deepsleep"] ∧
    writeVar secretsTemplate "mqtt_port" (Value.int 1884) = none ∧
    writeVar secretsTemplate "anything_else" (Value.str "x") = none ∧
    (["hostname", "mqtt_user", "mqtt_pass", "mqtt_server", "wifi_ssid",
      "wifi_pass", "mqtt_topic", "ota_pass", "mqtt_deepsleep"].all
        (fun n => (writeVar secretsTemplate n (Value.str "x")).isSome)) = true := by
  refine ⟨rfl, rfl, rfl, ?_⟩
  decide

/-- C3: all ten declared names carry a present, non-null value of the
documented type, and every one of the nine string bindings holds a
non-empty string. -/
theorem c3_present_typed_nonempty :
    secretsTemplate.length = 10 ∧
    secretsTemplate.all typedNonNull = true ∧
    (secretsTemplate.filter (fun d => d.ty == CType.ptrToConstChar)).length = 9 ∧
    secretsTemplate.all stringValueNonEmpty = true := by
  decide

/-- C4: mqtt_port is an integer in the inclusive range 0 to 65535,
hence a valid TCP port number. -/
theorem c4_port_in_range :
    0 ≤ mqtt_port ∧ mqtt_port ≤ 65535 := by
  decide

/-- C5: the supplied source contains no runtime operation after static
initialization, so running all of its runtime operations leaves the
store holding the ten constants unchanged, and every one of the ten
names reads back the same value before and after. -/
theorem c5_no_runtime_mutation :
    run secretsTemplate runtimeOps = secretsTemplate ∧
    ((secretsTemplate.map Decl.name).all
      (fun n => readVar (run secretsTemplate runtimeOps) n == readVar secretsTemplate n &&
                (readVar secretsTemplate n).isSome)) = true := by
  decide

/-- C6: mqtt_server is an IPv4 literal: splitting it at the dots gives
exactly four decimal components, with values 192, 168, 1 and 15, each
in the range 0 to 255. -/
theorem c6_server_ipv4 :
    (splitDot mqtt_server.toList).map digitsVal = [192, 168, 1, 15] ∧
    isIPv4 mqtt_server = true := by
  decide

/-- C7: static initialization of the ten constants is total and is the
only operation of the unit: it succeeds without any error, no
initializer contains branching logic, and the source holds no runtime
operation. -/
theorem c7_static_init_total_branchless :
    staticInit secretsTemplate = Except.ok templateStore ∧
    secretsTemplate.all (fun d => !hasBranching d.init) = true ∧
    runtimeOps = [] := by
  refine ⟨rfl, ?_, rfl⟩
  decide

/-- C8: mqtt_port equals exactly 1883, the standard unencrypted MQTT
port. -/
theorem c8_port_1883 : mqtt_port = 1883 := rfl

/-- C9: the two topic strings are distinct, both begin with the common
string "epever/", and neither contains an MQTT wildcard character, so
both are valid publish topics. -/
theorem c9_topics_valid :
    mqtt_topic ≠ mqtt_deepsleep ∧
    startsWith "epever/".toList mqtt_topic.toList = true ∧
    startsWith "epever/".toList mqtt_deepsleep.toList = true ∧
    noWildcard mqtt_topic = true ∧
    noWildcard mqtt_deepsleep = true := by
  decide

/-- C10: every one of the nine string constants consists solely of
printable ASCII characters and contains no whitespace and no control
characters. -/
theorem c10_strings_printable_ascii :
    stringValues.all
      (fun s => s.toList.all
        (fun c => isPrintableAscii c && !isWhitespaceChar c && !isControlChar c)) = true := by
  decide

end EpeverSecrets
